import Mathlib

/-!
Verification development for the share_price_checker USSD service.

The Python sources (src/app.py, src/db.py, src/wen.py) are shallowly embedded
below.  Python strings are Lean Strings; the handful of Python string-library
primitives the code relies on (str.split, str.lower, str.startswith, str.strip,
int(...), str.isdigit, str.capitalize) are re-implemented structurally over
List Char so that all definitions compute by kernel reduction.  The SQLite
subscriber table of db.py is modelled as a list of typed records (the JSON
round-trip of the subscribed_stocks column is the identity on well-formed
data, so the column is modelled directly as List String).  Stock prices are
modelled in cents (a Nat) with a two-decimal renderer standing in for the
Python format spec .2f; no claim depends on float semantics.
-/

/-- Model of the single-quote character, kept out of literals for hygiene. -/
def sglq : String := "\x27"

/-- Splitting a character list on the star delimiter, Python str.split semantics:
an empty input yields one empty field, a trailing delimiter yields a trailing
empty field. -/
def splitStarChars : List Char → List Char → List (List Char)
  | [], acc => [acc.reverse]
  | c :: cs, acc =>
    if c = '*' then acc.reverse :: splitStarChars cs [] else splitStarChars cs (c :: acc)

/-- Model of Python text.split(star) as used throughout app.py. -/
def pySplitStar (s : String) : List String := (splitStarChars s.data []).map String.mk

/-- Model of Python str.lower. -/
def pyLower (s : String) : String := String.mk (s.data.map Char.toLower)

/-- Model of Python str.startswith via an explicit character comparison loop. -/
def strStarts : List Char → List Char → Bool
  | [], _ => true
  | _ :: _, [] => false
  | p :: ps, c :: cs => p == c && strStarts ps cs

/-- Model of Python s.startswith(p). -/
def pyStartsWith (s p : String) : Bool := strStarts p.data s.data

/-- Model of Python str.strip as performed by int(...) on its argument. -/
def wsStrip (s : String) : String :=
  String.mk (((s.data.dropWhile Char.isWhitespace).reverse.dropWhile Char.isWhitespace).reverse)

/-- Decimal value of a digit character list. -/
def digitsVal (l : List Char) : Nat := l.foldl (fun acc c => acc * 10 + (c.toNat - 48)) 0

/-- Model of Python int(s) on strings: optional surrounding whitespace, an
optional sign, then at least one decimal digit; anything else raises
ValueError, modelled as none. -/
def pyInt (s : String) : Option Int :=
  let t := wsStrip s
  let core := if pyStartsWith t "-" || pyStartsWith t "+" then String.mk (t.data.drop 1) else t
  if core.data ≠ [] ∧ core.data.all Char.isDigit then
    some (if pyStartsWith t "-" then -(digitsVal core.data : Int) else (digitsVal core.data : Int))
  else none

/-- Model of Python s.isdigit(): nonempty and all decimal digits. -/
def isPyDigit (s : String) : Bool := !s.data.isEmpty && s.data.all Char.isDigit

/-- Model of Python str.capitalize: first character upper, rest lower. -/
def pyCapitalize (s : String) : String :=
  match s.data with
  | [] => ""
  | c :: cs => String.mk (c.toUpper :: cs.map Char.toLower)

/-- Renders a price held in cents with two decimals, standing in for the
Python format spec Ksh {price:.2f}. -/
def fmt2 (cents : Nat) : String :=
  toString (cents / 100) ++ "." ++
    (if cents % 100 < 10 then "0" ++ toString (cents % 100) else toString (cents % 100))

/-- Catalog entry, app.py CURRENT_STOCKS_DATA element: a name and a price. -/
structure Stock where
  name : String
  price : Nat
deriving DecidableEq

/-- Fallback entry used only under an in-bounds index proof obligation. -/
def defaultStock : Stock := ⟨"", 0⟩

/-- Row of the subscribers table created by db.init_db: primary key
phone_number, the subscribed_stocks JSON column as a typed list, and the two
integer notification flags (DEFAULT 0). -/
structure Subscriber where
  phone : String
  subscribed_stocks : List String
  market_open_notify : Nat
  market_close_notify : Nat
deriving DecidableEq

/-- The subscribers table, rows in insertion order. -/
abbrev Store := List Subscriber

/-- db.get_subscriber: SELECT * FROM subscribers WHERE phone_number = ? then
fetchone, i.e. the first matching row or none. -/
def get_subscriber (phone : String) (store : Store) : Option Subscriber :=
  store.find? (fun r => r.phone == phone)

/-- db.add_subscriber: INSERT of (phone, empty list); the primary-key
IntegrityError on an existing phone leaves the table unchanged. -/
def add_subscriber (phone : String) (store : Store) : Store :=
  if store.any (fun r => r.phone == phone) then store
  else store ++ [⟨phone, [], 0, 0⟩]

/-- db.remove_subscriber: DELETE FROM subscribers WHERE phone_number = ?. -/
def remove_subscriber (phone : String) (store : Store) : Store :=
  store.filter (fun r => !(r.phone == phone))

/-- db.update_subscribed_stocks: UPDATE of the subscribed_stocks column for
every row with the given phone. -/
def update_subscribed_stocks (phone : String) (stocks : List String) (store : Store) : Store :=
  store.map (fun r => if r.phone == phone then { r with subscribed_stocks := stocks } else r)

/-- db.update_notification_preference: UPDATE of the named flag column for
every row with the given phone; only the two flag columns are ever named. -/
def update_notification_preference (phone preference_type : String) (value : Nat)
    (store : Store) : Store :=
  store.map (fun r =>
    if r.phone == phone then
      if preference_type == "market_open_notify" then { r with market_open_notify := value }
      else if preference_type == "market_close_notify" then { r with market_close_notify := value }
      else r
    else r)

/-- app.main_menu_response, the literal four-option main menu. -/
def main_menu_response : String :=
  "CON Welcome to Share Price Tracker!\n1. Subscribe\n2. View Stocks\n3. My Subscriptions\n4. Unsubscribe"

/-- app.display_stocks_menu.  The catalog is passed explicitly in place of the
CURRENT_STOCKS_DATA global; the current_text_path parameter of the source is
dropped because the source never uses it in the rendered text.  Only the first
10 catalog entries are listed. -/
def display_stocks_menu (catalog : List Stock) : String :=
  if catalog.isEmpty then
    "No stock data available at the moment. Please try again later."
  else
    "Available Stocks:\n" ++
    String.join ((catalog.take 10).enum.map
      (fun p => toString (p.1 + 1) ++ ". " ++ p.2.name ++ "\n")) ++
    "Enter stock number to select.\n0. Back to Main Menu"

/-- app.handle_stock_selection (path 1*X, also reused for 3*1*add*X).  Returns
the response together with the resulting store.  The base_path_for_retry local
of the source is omitted: it only feeds the unused current_text_path parameter
of display_stocks_menu. -/
def handle_stock_selection (phone text : String) (catalog : List Stock) (store : Store) :
    String × Store :=
  let parts := pySplitStar text
  let selected_option := parts.getLastD ""
  if selected_option = "0" then (main_menu_response, store)
  else
    match pyInt selected_option with
    | none =>
      ("CON Invalid input. Please enter a number.\n" ++ display_stocks_menu catalog, store)
    | some v =>
      if 0 ≤ v - 1 ∧ v - 1 < (catalog.length : Int) then
        let selected_stock_name := (catalog.getD (v - 1).toNat defaultStock).name
        match get_subscriber phone store with
        | none => ("END Error: Subscriber not found. Please re-subscribe.", store)
        | some subscriber =>
          if selected_stock_name ∉ subscriber.subscribed_stocks then
            ("CON Successfully subscribed to " ++ selected_stock_name ++
               ".\n1. Subscribe to another stock\n0. Back to Main Menu",
             update_subscribed_stocks phone
               (subscriber.subscribed_stocks ++ [selected_stock_name]) store)
          else
            ("CON You are already subscribed to " ++ selected_stock_name ++
               ".\n1. Subscribe to another stock\n0. Back to Main Menu", store)
      else
        ("CON Invalid stock number. Please try again.\n" ++ display_stocks_menu catalog, store)

/-- app.handle_view_stock_details (path 2*X).  The phone_number parameter of
the source is dropped: it is never read.  No store effect occurs. -/
def handle_view_stock_details (text : String) (catalog : List Stock) : String :=
  let selected_option := (pySplitStar text).getLastD ""
  if selected_option = "0" then main_menu_response
  else
    match pyInt selected_option with
    | none => "CON Invalid input. Please enter a number.\n" ++ display_stocks_menu catalog
    | some v =>
      if 0 ≤ v - 1 ∧ v - 1 < (catalog.length : Int) then
        "END " ++ (catalog.getD (v - 1).toNat defaultStock).name ++ ": Ksh " ++
          fmt2 (catalog.getD (v - 1).toNat defaultStock).price ++ "\nData in real-time."
      else
        "CON Invalid stock number. Please try again.\n" ++ display_stocks_menu catalog

/-- Numbered listing of current subscriptions joined with newlines, as built
inline at app.py lines 206 and 210. -/
def subs_listing (subs : List String) : String :=
  String.intercalate "\n" (subs.enum.map (fun p => toString (p.1 + 1) ++ ". " ++ p.2))

/-- The out-of-range removal response of app.py line 207. -/
def manage_invalid_number_response (subs : List String) : String :=
  "CON Invalid stock number to remove. Please try again.\nYour current subscriptions:\n" ++
    subs_listing subs ++ "\nEnter stock number to remove, or " ++ sglq ++ "add" ++ sglq ++
    " to add new stocks.\n0. Back to Main Menu"

/-- The non-integer removal response of app.py line 211. -/
def manage_invalid_input_response (subs : List String) : String :=
  "CON Invalid input. Please enter a number or " ++ sglq ++ "add" ++ sglq ++
    ".\nYour current subscriptions:\n" ++ subs_listing subs ++
    "\nEnter stock number to remove, or " ++ sglq ++ "add" ++ sglq ++
    " to add new stocks.\n0. Back to Main Menu"

/-- app.handle_manage_subscribed_stocks (paths 3*1*X and 3*1*add*X). -/
def handle_manage_subscribed_stocks (phone text : String) (catalog : List Stock)
    (store : Store) : String × Store :=
  let parts := pySplitStar text
  let action := parts.getLastD ""
  match get_subscriber phone store with
  | none => ("END Error: Subscriber not found. Please re-subscribe.", store)
  | some subscriber =>
    let subscribed_stocks := subscriber.subscribed_stocks
    if action = "0" then (main_menu_response, store)
    else if pyLower action = "add" then
      ("CON Select stocks to add:\n" ++ display_stocks_menu catalog, store)
    else if 3 ≤ parts.length ∧ pyLower (parts.getD 2 "") = "add" ∧ isPyDigit action then
      handle_stock_selection phone ("1*" ++ action) catalog store
    else
      match pyInt action with
      | none => (manage_invalid_input_response subscribed_stocks, store)
      | some v =>
        if 0 ≤ v - 1 ∧ v - 1 < (subscribed_stocks.length : Int) then
          ("CON Removed " ++ subscribed_stocks.getD (v - 1).toNat "" ++
             " from your subscriptions.\n1. Manage Subscribed Stocks\n2. Set Notification Preferences\n0. Back to Main Menu",
           update_subscribed_stocks phone (subscribed_stocks.eraseIdx (v - 1).toNat) store)
        else (manage_invalid_number_response subscribed_stocks, store)

/-- Python truthiness rendering of an integer flag, ON for nonzero. -/
def onOffStr (v : Nat) : String := if v = 0 then "OFF" else "ON"

/-- The two-flag preference block rendered at app.py lines 231-234, 238-241,
246-249 and 330-333 (identical text each time). -/
def prefs_body (market_open market_close : Nat) : String :=
  "1. Market Open: " ++ onOffStr market_open ++ "\n2. Market Close: " ++ onOffStr market_close ++
    "\nSelect an option to toggle.\n0. Back to Main Menu"

/-- app.handle_notification_preference (path 3*2*X). -/
def handle_notification_preference (phone text : String) (store : Store) : String × Store :=
  let option := (pySplitStar text).getLastD ""
  match get_subscriber phone store with
  | none => ("END Error: Subscriber not found. Please re-subscribe.", store)
  | some subscriber =>
    if option = "1" then
      ("CON Set Notification Preferences:\n" ++
         prefs_body (if subscriber.market_open_notify = 0 then 1 else 0)
           subscriber.market_close_notify,
       update_notification_preference phone "market_open_notify"
         (if subscriber.market_open_notify = 0 then 1 else 0) store)
    else if option = "2" then
      ("CON Set Notification Preferences:\n" ++
         prefs_body subscriber.market_open_notify
           (if subscriber.market_close_notify = 0 then 1 else 0),
       update_notification_preference phone "market_close_notify"
         (if subscriber.market_close_notify = 0 then 1 else 0) store)
    else if option = "0" then (main_menu_response, store)
    else
      ("CON Invalid option. Please select 1 or 2.\n" ++
         prefs_body subscriber.market_open_notify subscriber.market_close_notify, store)

/-- app.ussd_callback: the full dispatcher, branch for branch in source order.
The catalog stands for CURRENT_STOCKS_DATA and the store for the database;
the returned pair is the response text and the resulting store. -/
def ussd_callback (phone text : String) (catalog : List Stock) (store : Store) :
    String × Store :=
  if text = "" then (main_menu_response, store)
  else if text = "1" then
    match get_subscriber phone store with
    | some _ =>
      ("END You are already subscribed! Choose " ++ sglq ++ "3" ++ sglq ++
         " to manage your subscriptions.", store)
    | none =>
      ("CON You have successfully subscribed!\nNow, let" ++ sglq ++
         "s select stocks to track.\n" ++ display_stocks_menu catalog,
       add_subscriber phone store)
  else if pyStartsWith text "1*" then handle_stock_selection phone text catalog store
  else if text = "2" then ("CON " ++ display_stocks_menu catalog, store)
  else if pyStartsWith text "2*" then (handle_view_stock_details text catalog, store)
  else if text = "3" then
    match get_subscriber phone store with
    | none =>
      ("END You are not subscribed. Dial again and select " ++ sglq ++ "1" ++ sglq ++
         " to subscribe.", store)
    | some _ =>
      ("CON My Subscriptions:\n1. Manage Subscribed Stocks\n2. Set Notification Preferences\n0. Back to Main Menu",
       store)
  else if text = "3*1" then
    match get_subscriber phone store with
    | some subscriber =>
      if subscriber.subscribed_stocks.isEmpty then
        ("CON You have no stocks subscribed yet.\n" ++ display_stocks_menu catalog, store)
      else
        ("CON Your current subscriptions:\n" ++
           String.join (subscriber.subscribed_stocks.enum.map
             (fun p => toString (p.1 + 1) ++ ". " ++ p.2 ++ "\n")) ++
           "--- Add/Remove ---\nEnter stock number to remove, or " ++ sglq ++ "add" ++ sglq ++
           " to add new stocks.\n0. Back to Main Menu", store)
    | none => ("END Error: Subscriber not found.", store)
  else if pyStartsWith text "3*1*" then handle_manage_subscribed_stocks phone text catalog store
  else if text = "3*2" then
    match get_subscriber phone store with
    | some subscriber =>
      ("CON Set Notification Preferences:\n" ++
         prefs_body subscriber.market_open_notify subscriber.market_close_notify, store)
    | none => ("END Error: Subscriber not found.", store)
  else if pyStartsWith text "3*2*" then handle_notification_preference phone text store
  else if text = "4" then
    ("END You have successfully unsubscribed from Stock Price Tracker. Goodbye!",
     remove_subscriber phone store)
  else ("END Invalid input. Please try again.", store)

/-- Shapes accepted by some dispatcher branch of ussd_callback; everything
else falls through to the terminal invalid-input response. -/
def grammar_shape (text : String) : Bool :=
  text == "" || text == "1" || pyStartsWith text "1*" || text == "2" ||
    pyStartsWith text "2*" || text == "3" || text == "3*1" || pyStartsWith text "3*1*" ||
    text == "3*2" || pyStartsWith text "3*2*" || text == "4"

/-- wen.send_market_notification, dict comprehension for stock prices keyed by
lowercased name; a later duplicate key overwrites an earlier one, so lookup
scans from the end. -/
def stock_dict_get (stocks : List Stock) (key : String) : Option Nat :=
  ((stocks.map (fun st => (pyLower st.name, st.price))).reverse).lookup key

/-- wen.send_market_notification message_parts for a nonempty subscription
list: a header line then one line per subscribed name, with a Price N/A line
when the lowercased name is absent from the price dict. -/
def message_lines (ntype : String) (stocks : List Stock) (subscribed : List String) :
    List String :=
  ("Market " ++ pyCapitalize ntype ++ " Update:") ::
    subscribed.map (fun stock_name =>
      match stock_dict_get stocks (pyLower stock_name) with
      | some price => stock_name ++ ": Ksh " ++ fmt2 price
      | none => stock_name ++ ": Price N/A")

/-- wen.send_market_notification per-subscriber message body. -/
def build_notification_message (ntype : String) (stocks : List Stock)
    (subscribed : List String) : String :=
  if subscribed.isEmpty then
    "Market " ++ ntype ++ " update: No stocks selected for notifications. Dial USSD to select."
  else String.intercalate "\n" (message_lines ntype stocks subscribed)

/-- wen.send_market_notification send_notification flag: a message goes out
only when the flag matching the notification kind is 1. -/
def should_send (ntype : String) (sub : Subscriber) : Bool :=
  if ntype = "open" ∧ sub.market_open_notify = 1 then true
  else if ntype = "close" ∧ sub.market_close_notify = 1 then true
  else false

/-- wen.send_market_notification observable sends, given that the daily
dedup guard passes: the list of (recipient, message) pairs attempted, empty
when no stock data is available.  The SMS transport and status file are out of
scope. -/
def send_market_notification (ntype : String) (stocks : List Stock)
    (subscribers : List Subscriber) : List (String × String) :=
  if stocks.isEmpty then []
  else (subscribers.filter (should_send ntype)).map
    (fun sub => (sub.phone, build_notification_message ntype stocks sub.subscribed_stocks))

/-- A concrete twelve-entry catalog used for boundary checks. -/
def catalog12 : List Stock :=
  [⟨"S01", 100⟩, ⟨"S02", 200⟩, ⟨"S03", 300⟩, ⟨"S04", 400⟩, ⟨"S05", 500⟩,
   ⟨"S06", 600⟩, ⟨"S07", 700⟩, ⟨"S08", 800⟩, ⟨"S09", 900⟩, ⟨"S10", 1000⟩,
   ⟨"S11", 1100⟩, ⟨"S12", 1200⟩]

/-- A concrete store holding one fresh subscriber. -/
def store0 : Store := [⟨"254700000000", [], 0, 0⟩]

/-!
Helper lemmas shared by the claim theorems.
-/

/-- A continue response: the rendered text starts with the CON marker. -/
def IsCon (r : String) : Prop := ∃ s, r = "CON " ++ s

/-- A terminal response: the rendered text starts with the END marker. -/
def IsEnd (r : String) : Prop := ∃ s, r = "END " ++ s

theorem isCon_append {a : String} (h : IsCon a) (b : String) : IsCon (a ++ b) := by
  obtain ⟨s, rfl⟩ := h
  exact ⟨s ++ b, String.append_assoc _ _ _⟩

theorem isEnd_append {a : String} (h : IsEnd a) (b : String) : IsEnd (a ++ b) := by
  obtain ⟨s, rfl⟩ := h
  exact ⟨s ++ b, String.append_assoc _ _ _⟩

theorem isCon_lit (a : String) (h : a = "CON " ++ String.mk (a.data.drop 4)) : IsCon a :=
  ⟨_, h⟩

theorem isEnd_lit (a : String) (h : a = "END " ++ String.mk (a.data.drop 4)) : IsEnd a :=
  ⟨_, h⟩

theorem find?_phone_map (f : Subscriber → Subscriber) (hf : ∀ r, (f r).phone = r.phone)
    (p : String) (store : Store) :
    (store.map f).find? (fun r => r.phone == p) =
      (store.find? (fun r => r.phone == p)).map f := by
  induction store with
  | nil => rfl
  | cons r rs ih =>
    simp only [List.map_cons, List.find?_cons, hf r]
    cases h : (r.phone == p)
    · simpa [h] using ih
    · simp [h]

theorem get_subscriber_update_subscribed_stocks (p : String) (l : List String) (store : Store) :
    get_subscriber p (update_subscribed_stocks p l store) =
      (get_subscriber p store).map (fun r => { r with subscribed_stocks := l }) := by
  unfold get_subscriber update_subscribed_stocks
  rw [find?_phone_map _ (fun r => by by_cases h : (r.phone == p) = true <;> simp [h]) p store]
  cases h : store.find? (fun r => r.phone == p) with
  | none => rfl
  | some r =>
    have hp : r.phone = p := by simpa using List.find?_some h
    simp [hp]

theorem get_subscriber_update_open (p : String) (v : Nat) (store : Store) :
    get_subscriber p (update_notification_preference p "market_open_notify" v store) =
      (get_subscriber p store).map (fun r => { r with market_open_notify := v }) := by
  unfold get_subscriber update_notification_preference
  rw [find?_phone_map _ (fun r => by by_cases h : (r.phone == p) = true <;> simp [h]) p store]
  cases h : store.find? (fun r => r.phone == p) with
  | none => rfl
  | some r =>
    have hp : r.phone = p := by simpa using List.find?_some h
    simp [hp]

theorem add_subscriber_absent (p : String) (store : Store)
    (h : get_subscriber p store = none) :
    add_subscriber p store = store ++ [⟨p, [], 0, 0⟩] := by
  unfold get_subscriber at h
  rw [List.find?_eq_none] at h
  unfold add_subscriber
  rw [if_neg]
  intro hx
  obtain ⟨x, hmem, hpx⟩ := List.any_eq_true.mp hx
  exact h x hmem hpx

theorem get_subscriber_append_self (p : String) (store : Store)
    (h : get_subscriber p store = none) :
    get_subscriber p (store ++ [⟨p, [], 0, 0⟩]) = some ⟨p, [], 0, 0⟩ := by
  unfold get_subscriber at h ⊢
  rw [List.find?_append, h]
  simp [List.find?_cons]

theorem filter_phone_nil (p : String) (store : Store)
    (h : get_subscriber p store = none) :
    store.filter (fun r => r.phone == p) = [] := by
  unfold get_subscriber at h
  rw [List.find?_eq_none] at h
  exact List.filter_eq_nil_iff.mpr h

theorem get_subscriber_remove (p : String) (store : Store) :
    get_subscriber p (remove_subscriber p store) = none := by
  unfold get_subscriber remove_subscriber
  rw [List.find?_eq_none]
  intro x hx
  have h2 := (List.mem_filter.mp hx).2
  simp only [Bool.not_eq_eq_eq_not, Bool.not_true] at h2
  simp [h2]

theorem remove_subscriber_idem (p : String) (store : Store) :
    remove_subscriber p (remove_subscriber p store) = remove_subscriber p store := by
  unfold remove_subscriber
  rw [List.filter_filter]
  simp

theorem ussd_one_eq (phone : String) (catalog : List Stock) (store : Store) :
    ussd_callback phone "1" catalog store =
      match get_subscriber phone store with
      | some _ =>
        ("END You are already subscribed! Choose " ++ sglq ++ "3" ++ sglq ++
           " to manage your subscriptions.", store)
      | none =>
        ("CON You have successfully subscribed!\nNow, let" ++ sglq ++
           "s select stocks to track.\n" ++ display_stocks_menu catalog,
         add_subscriber phone store) := rfl

theorem ussd_321_eq (phone : String) (catalog : List Stock) (store : Store) :
    ussd_callback phone "3*2*1" catalog store =
      handle_notification_preference phone "3*2*1" store := rfl

theorem ussd_four_eq (phone : String) (catalog : List Stock) (store : Store) :
    ussd_callback phone "4" catalog store =
      ("END You have successfully unsubscribed from Stock Price Tracker. Goodbye!",
       remove_subscriber phone store) := rfl

theorem handle_pref_321 (phone : String) (store : Store) (subscriber : Subscriber)
    (hsub : get_subscriber phone store = some subscriber) :
    handle_notification_preference phone "3*2*1" store =
      ("CON Set Notification Preferences:\n" ++
         prefs_body (if subscriber.market_open_notify = 0 then 1 else 0)
           subscriber.market_close_notify,
       update_notification_preference phone "market_open_notify"
         (if subscriber.market_open_notify = 0 then 1 else 0) store) := by
  unfold handle_notification_preference
  rw [hsub]
  rfl

/-!
Claim theorems.
-/

/-- C10: handling path 4 is unconditional and idempotent: whatever the store
holds, the response is the fixed terminal unsubscribe message and the
resulting store is the store with every record for the phone deleted, so no
record for the phone remains and a second submission changes nothing. -/
theorem C10_unsubscribe_unconditional (phone : String) (catalog : List Stock) (store : Store) :
    ussd_callback phone "4" catalog store =
      ("END You have successfully unsubscribed from Stock Price Tracker. Goodbye!",
       remove_subscriber phone store) ∧
    get_subscriber phone (ussd_callback phone "4" catalog store).2 = none ∧
    (ussd_callback phone "4" catalog (ussd_callback phone "4" catalog store).2).2 =
      (ussd_callback phone "4" catalog store).2 := by
  refine ⟨rfl, ?_, ?_⟩
  · rw [ussd_four_eq]
    exact get_subscriber_remove phone store
  · simp only [ussd_four_eq]
    exact remove_subscriber_idem phone store

/-- C5: handling path 1 returns the terminal already-subscribed response and
leaves the store unchanged when a record exists; otherwise it appends the
fresh record with an empty subscription list and default flags and returns a
continue response, after which the record is found, a second submission of 1
leaves the store unchanged, and exactly one record for the phone exists. -/
theorem C5_subscribe_once (phone : String) (catalog : List Stock) (store : Store) :
    (∀ subscriber, get_subscriber phone store = some subscriber →
        ussd_callback phone "1" catalog store =
          ("END You are already subscribed! Choose " ++ sglq ++ "3" ++ sglq ++
             " to manage your subscriptions.", store)) ∧
    (get_subscriber phone store = none →
        ussd_callback phone "1" catalog store =
          ("CON You have successfully subscribed!\nNow, let" ++ sglq ++
             "s select stocks to track.\n" ++ display_stocks_menu catalog,
           store ++ [⟨phone, [], 0, 0⟩]) ∧
        get_subscriber phone (ussd_callback phone "1" catalog store).2 =
          some ⟨phone, [], 0, 0⟩ ∧
        (ussd_callback phone "1" catalog (ussd_callback phone "1" catalog store).2).2 =
          (ussd_callback phone "1" catalog store).2 ∧
        ((ussd_callback phone "1" catalog store).2.filter
            (fun r => r.phone == phone)).length = 1) := by
  constructor
  · intro subscriber hsub
    rw [ussd_one_eq, hsub]
  · intro hnone
    have hstep : ussd_callback phone "1" catalog store =
        ("CON You have successfully subscribed!\nNow, let" ++ sglq ++
           "s select stocks to track.\n" ++ display_stocks_menu catalog,
         store ++ [⟨phone, [], 0, 0⟩]) := by
      rw [ussd_one_eq, hnone, add_subscriber_absent phone store hnone]
    have hget : get_subscriber phone (ussd_callback phone "1" catalog store).2 =
        some ⟨phone, [], 0, 0⟩ := by
      rw [hstep]
      exact get_subscriber_append_self phone store hnone
    refine ⟨hstep, hget, ?_, ?_⟩
    · rw [ussd_one_eq phone catalog (ussd_callback phone "1" catalog store).2, hget]
    · rw [hstep]
      simp only [List.filter_append, filter_phone_nil phone store hnone]
      simp

/-- C5 witness: on the empty store, submitting 1 creates the one record. -/
theorem C5_subscribe_once_witness :
    get_subscriber "254700000000" (ussd_callback "254700000000" "1" [] []).2 =
      some ⟨"254700000000", [], 0, 0⟩ :=
  ((C5_subscribe_once "254700000000" [] []).2 (by decide)).2.1

/-- C8: handling path 3*2*1 in two successive sessions restores the
market-open-notify flag: the first call flips a 0 or 1 flag, the second flips
it back, and the other fields of the record are untouched. -/
theorem C8_toggle_round_trip (phone : String) (catalog catalog2 : List Stock)
    (store : Store) (subscriber : Subscriber)
    (hsub : get_subscriber phone store = some subscriber)
    (hflag : subscriber.market_open_notify = 0 ∨ subscriber.market_open_notify = 1) :
    ∃ subscriber1 subscriber2,
      get_subscriber phone (ussd_callback phone "3*2*1" catalog store).2 = some subscriber1 ∧
      subscriber1.market_open_notify =
        (if subscriber.market_open_notify = 0 then 1 else 0) ∧
      get_subscriber phone
          (ussd_callback phone "3*2*1" catalog2
            (ussd_callback phone "3*2*1" catalog store).2).2 = some subscriber2 ∧
      subscriber2.market_open_notify = subscriber.market_open_notify ∧
      subscriber2.market_close_notify = subscriber.market_close_notify ∧
      subscriber2.subscribed_stocks = subscriber.subscribed_stocks ∧
      subscriber2.phone = subscriber.phone := by
  have h1 : get_subscriber phone (ussd_callback phone "3*2*1" catalog store).2 =
      some { subscriber with
             market_open_notify := if subscriber.market_open_notify = 0 then 1 else 0 } := by
    rw [ussd_321_eq, handle_pref_321 phone store subscriber hsub]
    show get_subscriber phone (update_notification_preference phone "market_open_notify" _ store) = _
    rw [get_subscriber_update_open, hsub]
    rfl
  have h2 : get_subscriber phone
      (ussd_callback phone "3*2*1" catalog2 (ussd_callback phone "3*2*1" catalog store).2).2 =
      some { subscriber with
             market_open_notify :=
               if (if subscriber.market_open_notify = 0 then 1 else 0) = 0 then 1 else 0 } := by
    rw [ussd_321_eq, handle_pref_321 _ _ _ h1]
    show get_subscriber phone (update_notification_preference phone "market_open_notify" _ _) = _
    rw [get_subscriber_update_open, h1]
    rfl
  refine ⟨_, _, h1, rfl, h2, ?_, rfl, rfl, rfl⟩
  rcases hflag with h | h <;> simp [h]

/-- C8 witness: a fresh record with flag 0 round-trips through two toggles. -/
theorem C8_toggle_round_trip_witness :
    ∃ subscriber1 subscriber2,
      get_subscriber "254700000000"
          (ussd_callback "254700000000" "3*2*1" [] [⟨"254700000000", [], 0, 0⟩]).2 =
        some subscriber1 ∧
      subscriber1.market_open_notify = 1 ∧
      get_subscriber "254700000000"
          (ussd_callback "254700000000" "3*2*1" []
            (ussd_callback "254700000000" "3*2*1" [] [⟨"254700000000", [], 0, 0⟩]).2).2 =
        some subscriber2 ∧
      subscriber2.market_open_notify = 0 ∧
      subscriber2.market_close_notify = 0 ∧
      subscriber2.subscribed_stocks = ([] : List String) ∧
      subscriber2.phone = "254700000000" :=
  C8_toggle_round_trip "254700000000" [] [] [⟨"254700000000", [], 0, 0⟩]
    ⟨"254700000000", [], 0, 0⟩ (by decide) (Or.inl rfl)

/-- C1 counterexample: on the twelve-entry catalog the selection 1*11 is a
valid full-catalog index and is accepted by the code: the handler returns the
success response and mutates the store, rather than rejecting the selection
with the invalid-selection response and no mutation as the claim states. -/
theorem C1_counterexample :
    (ussd_callback "254700000000" "1*11" catalog12 store0).1 =
      "CON Successfully subscribed to S11.\n1. Subscribe to another stock\n0. Back to Main Menu" ∧
    (ussd_callback "254700000000" "1*11" catalog12 store0).2 =
      [⟨"254700000000", ["S11"], 0, 0⟩] ∧
    (ussd_callback "254700000000" "1*11" catalog12 store0).2 ≠ store0 := by
  refine ⟨by decide, by decide, by decide⟩

/-- C1 (amended): the numeric stock selections bound-check against the full
catalog, not its first 10 entries.  For any trailing segment parsing to an
integer v greater than 10: when v is at most the catalog length the view
branch shows the v-th stock and the selection branch subscribes (or reports
an existing subscription) for an existing subscriber; the invalid-selection
response with no store mutation occurs exactly when v exceeds the catalog
length. -/
theorem C1_full_catalog_bounds (phone t s : String) (catalog : List Stock) (store : Store)
    (v : Int)
    (hlast : (pySplitStar t).getLastD "" = s)
    (hpy : pyInt s = some v) (hv : 10 < v) :
    (v ≤ (catalog.length : Int) →
        (handle_view_stock_details t catalog =
          "END " ++ (catalog.getD (v - 1).toNat defaultStock).name ++ ": Ksh " ++
            fmt2 (catalog.getD (v - 1).toNat defaultStock).price ++ "\nData in real-time.") ∧
        (∀ subscriber, get_subscriber phone store = some subscriber →
          handle_stock_selection phone t catalog store =
            ("CON Successfully subscribed to " ++
               (catalog.getD (v - 1).toNat defaultStock).name ++
               ".\n1. Subscribe to another stock\n0. Back to Main Menu",
             update_subscribed_stocks phone
               (subscriber.subscribed_stocks ++
                 [(catalog.getD (v - 1).toNat defaultStock).name]) store) ∨
          handle_stock_selection phone t catalog store =
            ("CON You are already subscribed to " ++
               (catalog.getD (v - 1).toNat defaultStock).name ++
               ".\n1. Subscribe to another stock\n0. Back to Main Menu", store))) ∧
    ((catalog.length : Int) < v →
        handle_view_stock_details t catalog =
          "CON Invalid stock number. Please try again.\n" ++ display_stocks_menu catalog ∧
        handle_stock_selection phone t catalog store =
          ("CON Invalid stock number. Please try again.\n" ++ display_stocks_menu catalog,
           store)) := by
  have hs0 : s ≠ "0" := by
    intro h
    subst h
    have h0 : pyInt "0" = some 0 := by decide
    rw [h0] at hpy
    have := Option.some.inj hpy
    omega
  constructor
  · intro hle
    constructor
    · simp only [handle_view_stock_details, hlast, hpy, hs0, if_false, ite_false]
      rw [if_pos (show (0 : Int) ≤ v - 1 ∧ v - 1 < (catalog.length : Int) from
        ⟨by omega, by omega⟩)]
    · intro subscriber hsub
      simp only [handle_stock_selection, hlast, hpy, hs0, if_false, ite_false, hsub]
      rw [if_pos (show (0 : Int) ≤ v - 1 ∧ v - 1 < (catalog.length : Int) from
        ⟨by omega, by omega⟩)]
      by_cases hmem : (catalog.getD (v - 1).toNat defaultStock).name ∈
          subscriber.subscribed_stocks
      · right
        rw [if_neg (not_not_intro hmem)]
      · left
        rw [if_pos hmem]
  · intro hgt
    constructor
    · simp only [handle_view_stock_details, hlast, hpy, hs0, if_false, ite_false]
      rw [if_neg (show ¬((0 : Int) ≤ v - 1 ∧ v - 1 < (catalog.length : Int)) from
        by omega)]
    · simp only [handle_stock_selection, hlast, hpy, hs0, if_false, ite_false]
      rw [if_neg (show ¬((0 : Int) ≤ v - 1 ∧ v - 1 < (catalog.length : Int)) from
        by omega)]

/-- C1 witness: with the twelve-entry catalog the segment 11 is in bounds and
both branches accept it. -/
theorem C1_full_catalog_bounds_witness :
    handle_view_stock_details "1*11" catalog12 = "END S11: Ksh 11.00\nData in real-time." ∧
    (handle_stock_selection "254700000000" "1*11" catalog12 store0 =
        ("CON Successfully subscribed to S11.\n1. Subscribe to another stock\n0. Back to Main Menu",
         update_subscribed_stocks "254700000000" ["S11"] store0) ∨
      handle_stock_selection "254700000000" "1*11" catalog12 store0 =
        ("CON You are already subscribed to S11.\n1. Subscribe to another stock\n0. Back to Main Menu",
         store0)) := by
  have h := (C1_full_catalog_bounds "254700000000" "1*11" "11" catalog12 store0 11
    (by decide) (by decide) (by decide)).1 (by decide)
  exact ⟨h.1, h.2 ⟨"254700000000", [], 0, 0⟩ (by decide)⟩

theorem getLastD3 (a b c d : String) : List.getLastD [a, b, c] d = c := rfl

theorem getLastD4 (a b c e d : String) : List.getLastD [a, b, c, e] d = e := rfl

theorem getD2of4 (a b c e d : String) : List.getD [a, b, c, e] 2 d = c := rfl

theorem toLower_of_isDigit (c : Char) (h : Char.isDigit c = true) : Char.toLower c = c := by
  unfold Char.isDigit at h
  rw [Bool.and_eq_true] at h
  obtain ⟨h1, h2⟩ := h
  have h2n : c.val ≤ 57 := of_decide_eq_true h2
  have hle : c.val.toNat ≤ (57 : UInt32).toNat := h2n
  have h57 : (57 : UInt32).toNat = 57 := rfl
  unfold Char.toLower
  rw [if_neg]
  intro hc
  obtain ⟨h65, h90⟩ := hc
  unfold Char.toNat at h65
  omega

theorem isPyDigit_lower_ne_add (n : String) (h : isPyDigit n = true) : pyLower n ≠ "add" := by
  intro he
  unfold isPyDigit at h
  rw [Bool.and_eq_true] at h
  obtain ⟨hne, hall⟩ := h
  have hd : n.data.map Char.toLower = ['a', 'd', 'd'] := congrArg String.data he
  have hh : Option.map Char.toLower n.data.head? = some 'a' := by
    rw [← List.head?_map, hd]
    rfl
  cases hc : n.data with
  | nil => rw [hc] at hh; simp at hh
  | cons c cs =>
    rw [hc] at hh
    simp only [List.head?_cons, Option.map_some'] at hh
    have hcm := Option.some.inj hh
    have hdig : Char.isDigit c = true :=
      List.all_eq_true.mp hall c (by rw [hc]; exact List.mem_cons_self _ _)
    rw [toLower_of_isDigit c hdig] at hcm
    rw [hcm] at hdig
    exact absurd hdig (by decide)

theorem strStarts_self_append (p r : List Char) : strStarts p (p ++ r) = true := by
  induction p with
  | nil => rfl
  | cons c cs ih => simp [strStarts, ih]

theorem pyStartsWith_append (p r : String) : pyStartsWith (p ++ r) p = true := by
  unfold pyStartsWith
  rw [String.data_append]
  exact strStarts_self_append _ _

theorem one_star_ne_empty (n : String) : ("1*" ++ n) ≠ "" := by
  intro h
  have h1 := congrArg String.data h
  have h2 : ('1' :: '*' :: n.data : List Char) = [] := h1
  simp at h2

theorem one_star_ne_one (n : String) : ("1*" ++ n) ≠ "1" := by
  intro h
  have h1 := congrArg String.data h
  have h2 : ('1' :: '*' :: n.data : List Char) = ['1'] := h1
  simp at h2

theorem ussd_one_star (phone n : String) (catalog : List Stock) (store : Store) :
    ussd_callback phone ("1*" ++ n) catalog store =
      handle_stock_selection phone ("1*" ++ n) catalog store := by
  unfold ussd_callback
  rw [if_neg (one_star_ne_empty n), if_neg (one_star_ne_one n),
    if_pos (pyStartsWith_append "1*" n)]

/-- C4: stock selection keeps the subscription list duplicate free.  With the
trailing segment parsing to n + 1 for an in-catalog index n and an existing
subscriber: selecting an already-held name leaves the store untouched and
answers with the already-subscribed continue response; selecting a new name
appends exactly that name; and on a duplicate-free list two selections of the
same stock leave a duplicate-free list holding exactly one occurrence of the
name, the second call changing nothing. -/
theorem C4_no_duplicate_subscription (phone t s : String) (catalog : List Stock)
    (store : Store) (subscriber : Subscriber) (n : Nat)
    (hlast : (pySplitStar t).getLastD "" = s)
    (hpy : pyInt s = some ((n : Int) + 1))
    (hn : n < catalog.length)
    (hsub : get_subscriber phone store = some subscriber) :
    ((catalog.getD n defaultStock).name ∈ subscriber.subscribed_stocks →
        handle_stock_selection phone t catalog store =
          ("CON You are already subscribed to " ++ (catalog.getD n defaultStock).name ++
             ".\n1. Subscribe to another stock\n0. Back to Main Menu", store)) ∧
    ((catalog.getD n defaultStock).name ∉ subscriber.subscribed_stocks →
        handle_stock_selection phone t catalog store =
          ("CON Successfully subscribed to " ++ (catalog.getD n defaultStock).name ++
             ".\n1. Subscribe to another stock\n0. Back to Main Menu",
           update_subscribed_stocks phone
             (subscriber.subscribed_stocks ++ [(catalog.getD n defaultStock).name]) store)) ∧
    (subscriber.subscribed_stocks.Nodup →
        ∃ subscriber2,
          get_subscriber phone
              (handle_stock_selection phone t catalog
                (handle_stock_selection phone t catalog store).2).2 = some subscriber2 ∧
          subscriber2.subscribed_stocks.Nodup ∧
          subscriber2.subscribed_stocks.count (catalog.getD n defaultStock).name = 1 ∧
          (handle_stock_selection phone t catalog
              (handle_stock_selection phone t catalog store).2).2 =
            (handle_stock_selection phone t catalog store).2) := by
  have hs0 : s ≠ "0" := by
    intro h
    subst h
    have h0 : pyInt "0" = some 0 := by decide
    rw [h0] at hpy
    have := Option.some.inj hpy
    omega
  have hidx : (((n : Int) + 1) - 1).toNat = n := by omega
  have hcore : ∀ (st : Store) (sub : Subscriber), get_subscriber phone st = some sub →
      handle_stock_selection phone t catalog st =
        (if (catalog.getD n defaultStock).name ∉ sub.subscribed_stocks then
           ("CON Successfully subscribed to " ++ (catalog.getD n defaultStock).name ++
              ".\n1. Subscribe to another stock\n0. Back to Main Menu",
            update_subscribed_stocks phone
              (sub.subscribed_stocks ++ [(catalog.getD n defaultStock).name]) st)
         else
           ("CON You are already subscribed to " ++ (catalog.getD n defaultStock).name ++
              ".\n1. Subscribe to another stock\n0. Back to Main Menu", st)) := by
    intro st sub hs
    simp only [handle_stock_selection, hlast, hpy, hs0, if_false, ite_false, hs, hidx]
    rw [if_pos (show (0 : Int) ≤ (n : Int) + 1 - 1 ∧ (n : Int) + 1 - 1 < (catalog.length : Int)
      from ⟨by omega, by omega⟩)]
  refine ⟨?_, ?_, ?_⟩
  · intro hmem
    rw [hcore store subscriber hsub, if_neg (not_not_intro hmem)]
  · intro hmem
    rw [hcore store subscriber hsub, if_pos hmem]
  · intro hnd
    by_cases hmem : (catalog.getD n defaultStock).name ∈ subscriber.subscribed_stocks
    · have h1 : (handle_stock_selection phone t catalog store).2 = store := by
        rw [hcore store subscriber hsub, if_neg (not_not_intro hmem)]
      refine ⟨subscriber, ?_, hnd, List.count_eq_one_of_mem hnd hmem, ?_⟩
      · rw [h1, h1]
        exact hsub
      · rw [h1]
        exact h1
    · have h2 : handle_stock_selection phone t catalog store =
          ("CON Successfully subscribed to " ++ (catalog.getD n defaultStock).name ++
             ".\n1. Subscribe to another stock\n0. Back to Main Menu",
           update_subscribed_stocks phone
             (subscriber.subscribed_stocks ++ [(catalog.getD n defaultStock).name]) store) := by
        rw [hcore store subscriber hsub, if_pos hmem]
      have hget1 : get_subscriber phone (handle_stock_selection phone t catalog store).2 =
          some { subscriber with
                 subscribed_stocks :=
                   subscriber.subscribed_stocks ++ [(catalog.getD n defaultStock).name] } := by
        rw [h2]
        show get_subscriber phone (update_subscribed_stocks phone _ store) = _
        rw [get_subscriber_update_subscribed_stocks, hsub]
        rfl
      have hmem1 : (catalog.getD n defaultStock).name ∈
          (subscriber.subscribed_stocks ++ [(catalog.getD n defaultStock).name]) := by simp
      have h3 : handle_stock_selection phone t catalog
            (handle_stock_selection phone t catalog store).2 =
          ("CON You are already subscribed to " ++ (catalog.getD n defaultStock).name ++
             ".\n1. Subscribe to another stock\n0. Back to Main Menu",
           (handle_stock_selection phone t catalog store).2) := by
        rw [hcore _ _ hget1, if_neg (not_not_intro hmem1)]
      refine ⟨{ subscriber with
                subscribed_stocks :=
                  subscriber.subscribed_stocks ++ [(catalog.getD n defaultStock).name] },
        ?_, ?_, ?_, ?_⟩
      · rw [h3]
        exact hget1
      · show (subscriber.subscribed_stocks ++ [(catalog.getD n defaultStock).name]).Nodup
        rw [List.nodup_middle]
        simp only [List.append_nil, List.nodup_cons]
        exact ⟨hmem, hnd⟩
      · show (subscriber.subscribed_stocks ++
            [(catalog.getD n defaultStock).name]).count (catalog.getD n defaultStock).name = 1
        rw [List.count_append, List.count_eq_zero.mpr hmem]
        simp
      · rw [h3]

/-- C4 witness: a fresh subscriber and the one-entry catalog; two selections
of stock 1 leave one occurrence of Safaricom. -/
theorem C4_no_duplicate_subscription_witness :
    ∃ subscriber2,
      get_subscriber "254700000000"
          (handle_stock_selection "254700000000" "1*1" [⟨"Safaricom", 1550⟩]
            (handle_stock_selection "254700000000" "1*1" [⟨"Safaricom", 1550⟩] store0).2).2 =
        some subscriber2 ∧
      subscriber2.subscribed_stocks.Nodup ∧
      subscriber2.subscribed_stocks.count "Safaricom" = 1 ∧
      (handle_stock_selection "254700000000" "1*1" [⟨"Safaricom", 1550⟩]
          (handle_stock_selection "254700000000" "1*1" [⟨"Safaricom", 1550⟩] store0).2).2 =
        (handle_stock_selection "254700000000" "1*1" [⟨"Safaricom", 1550⟩] store0).2 :=
  (C4_no_duplicate_subscription "254700000000" "1*1" "1" [⟨"Safaricom", 1550⟩] store0
    ⟨"254700000000", [], 0, 0⟩ 0 (by decide) (by decide) (by decide) (by decide)).2.2
    (by decide)

/-- C6: removal with an out-of-range index under path 3*1*k is recoverable:
for an existing subscriber and integer k outside 1..length of the own
subscription list, the handler answers with the continue response listing the
current subscriptions and performs no store mutation. -/
theorem C6_remove_out_of_range (phone t k : String) (catalog : List Stock) (store : Store)
    (subscriber : Subscriber) (v : Int)
    (hparts : pySplitStar t = ["3", "1", k])
    (hsub : get_subscriber phone store = some subscriber)
    (hk0 : k ≠ "0") (hkadd : pyLower k ≠ "add")
    (hpy : pyInt k = some v)
    (hv : v < 1 ∨ (subscriber.subscribed_stocks.length : Int) < v) :
    handle_manage_subscribed_stocks phone t catalog store =
      (manage_invalid_number_response subscriber.subscribed_stocks, store) := by
  simp only [handle_manage_subscribed_stocks, hparts, hsub, getLastD3, hk0, hkadd, hpy,
    if_false, ite_false, false_and, and_false]
  rw [if_neg (show ¬(3 ≤ (["3", "1", k] : List String).length ∧
      pyLower (List.getD ["3", "1", k] 2 "") = "add" ∧ isPyDigit k = true) from by
    intro hc
    exact hkadd hc.2.1)]
  rw [if_neg (show ¬((0 : Int) ≤ v - 1 ∧
      v - 1 < (subscriber.subscribed_stocks.length : Int)) from by omega)]

/-- C6 witness: index 9 against a one-entry subscription list is rejected and
the list survives unchanged. -/
theorem C6_remove_out_of_range_witness :
    handle_manage_subscribed_stocks "254700000000" "3*1*9" []
        [⟨"254700000000", ["Safaricom"], 0, 0⟩] =
      (manage_invalid_number_response ["Safaricom"],
       [⟨"254700000000", ["Safaricom"], 0, 0⟩]) :=
  C6_remove_out_of_range "254700000000" "3*1*9" "9" []
    [⟨"254700000000", ["Safaricom"], 0, 0⟩] ⟨"254700000000", ["Safaricom"], 0, 0⟩ 9
    (by decide) (by decide) (by decide) (by decide) (by decide) (Or.inr (by decide))

/-- C7 counterexample: with no subscriber record, path 3*1*add*5 answers the
terminal subscriber-not-found response while path 1*5 answers the continue
invalid-stock-number response on the same two-entry catalog and store, so the
two paths are not equivalent for every store state. -/
theorem C7_counterexample :
    ussd_callback "254700000000" "3*1*add*5" [⟨"Safaricom", 1550⟩, ⟨"KCB", 4000⟩] [] ≠
      ussd_callback "254700000000" "1*5" [⟨"Safaricom", 1550⟩, ⟨"KCB", 4000⟩] [] := by
  decide

/-- C7 (amended): when a subscriber record exists for the phone, handling
path 3*1*add*n for a digit string n delegates to exactly the stock-selection
logic of path 1*n: the manage handler equals handle_stock_selection on the
rebuilt path, and the dispatcher sends that rebuilt path to the same
handler. -/
theorem C7_add_delegates (phone t n : String) (catalog : List Stock) (store : Store)
    (subscriber : Subscriber)
    (hparts : pySplitStar t = ["3", "1", "add", n])
    (hdig : isPyDigit n = true)
    (hsub : get_subscriber phone store = some subscriber) :
    handle_manage_subscribed_stocks phone t catalog store =
      handle_stock_selection phone ("1*" ++ n) catalog store ∧
    ussd_callback phone ("1*" ++ n) catalog store =
      handle_stock_selection phone ("1*" ++ n) catalog store := by
  refine ⟨?_, ussd_one_star phone n catalog store⟩
  by_cases hn0 : n = "0"
  · subst hn0
    simp only [handle_manage_subscribed_stocks, hparts, hsub, getLastD4, if_true, ite_true]
    rfl
  · have hladd : pyLower n ≠ "add" := isPyDigit_lower_ne_add n hdig
    simp only [handle_manage_subscribed_stocks, hparts, hsub, getLastD4, getD2of4, hn0,
      hladd, if_false, ite_false]
    rw [if_pos (show 3 ≤ (["3", "1", "add", n] : List String).length ∧
        pyLower "add" = "add" ∧ isPyDigit n = true from ⟨by simp, by decide, hdig⟩)]

/-- C7 witness: with the fresh subscriber present, 3*1*add*1 and the rebuilt
1*1 agree on response and store effect. -/
theorem C7_add_delegates_witness :
    handle_manage_subscribed_stocks "254700000000" "3*1*add*1" catalog12 store0 =
      handle_stock_selection "254700000000" "1*1" catalog12 store0 ∧
    ussd_callback "254700000000" "1*1" catalog12 store0 =
      handle_stock_selection "254700000000" "1*1" catalog12 store0 :=
  C7_add_delegates "254700000000" "3*1*add*1" "1" catalog12 store0
    ⟨"254700000000", [], 0, 0⟩ (by decide) (by decide) (by decide)

/-- C9: the dispatcher sends only to subscribers whose flag matching the
notification kind is set (and to all of them), the message body has one line
per subscribed name after the header, a subscribed name whose lowercased form
is absent from the price dict renders as a Price N/A line rather than being
dropped, and the send flag is exactly the open/close flag test of the
source. -/
theorem C9_dispatch (ntype : String) (stocks : List Stock) (subscribers : List Subscriber)
    (hstocks : stocks ≠ []) :
    (∀ sub ∈ subscribers, should_send ntype sub = true →
       (sub.phone, build_notification_message ntype stocks sub.subscribed_stocks) ∈
         send_market_notification ntype stocks subscribers) ∧
    (∀ pm ∈ send_market_notification ntype stocks subscribers,
       ∃ sub ∈ subscribers, should_send ntype sub = true ∧
         pm = (sub.phone, build_notification_message ntype stocks sub.subscribed_stocks)) ∧
    (∀ subscribed : List String,
       (message_lines ntype stocks subscribed).length = subscribed.length + 1) ∧
    (∀ subscribed : List String, ∀ nm ∈ subscribed,
       stock_dict_get stocks (pyLower nm) = none →
         (nm ++ ": Price N/A") ∈ message_lines ntype stocks subscribed) ∧
    (∀ sub : Subscriber, should_send ntype sub = true ↔
       ((ntype = "open" ∧ sub.market_open_notify = 1) ∨
        (ntype = "close" ∧ sub.market_close_notify = 1))) := by
  have hie : stocks.isEmpty = false := by
    cases stocks with
    | nil => exact absurd rfl hstocks
    | cons a l => rfl
  have hsend : send_market_notification ntype stocks subscribers =
      (subscribers.filter (should_send ntype)).map
        (fun sub => (sub.phone, build_notification_message ntype stocks sub.subscribed_stocks)) := by
    unfold send_market_notification
    rw [hie]
    rfl
  refine ⟨?_, ?_, ?_, ?_, ?_⟩
  · intro sub hmem hs
    rw [hsend]
    exact List.mem_map.mpr ⟨sub, List.mem_filter.mpr ⟨hmem, hs⟩, rfl⟩
  · intro pm hpm
    rw [hsend] at hpm
    obtain ⟨sub, hsubmem, rfl⟩ := List.mem_map.mp hpm
    obtain ⟨hm, hp⟩ := List.mem_filter.mp hsubmem
    exact ⟨sub, hm, hp, rfl⟩
  · intro subscribed
    simp [message_lines]
  · intro subscribed nm hmem hnone
    refine List.mem_cons.mpr (Or.inr (List.mem_map.mpr ⟨nm, hmem, ?_⟩))
    rw [hnone]
  · intro sub
    constructor
    · intro h
      unfold should_send at h
      split at h
      · left; assumption
      · split at h
        · right; assumption
        · exact absurd h (by simp)
    · intro h
      unfold should_send
      rcases h with h | h
      · rw [if_pos h]
      · by_cases h1 : (ntype = "open" ∧ sub.market_open_notify = 1)
        · rw [if_pos h1]
        · rw [if_neg h1, if_pos h]

/-- C9 witness: a name outside the catalog renders a Price N/A line and a
flag-set subscriber receives the built message. -/
theorem C9_dispatch_witness :
    ("KCB" ++ ": Price N/A") ∈ message_lines "open" [⟨"Safaricom", 1550⟩] ["KCB"] ∧
    ("254700000000",
      build_notification_message "open" [⟨"Safaricom", 1550⟩] ["KCB"]) ∈
      send_market_notification "open" [⟨"Safaricom", 1550⟩]
        [⟨"254700000000", ["KCB"], 1, 0⟩] :=
  ⟨(C9_dispatch "open" [⟨"Safaricom", 1550⟩] [] (by decide)).2.2.2.1 ["KCB"] "KCB"
      (by decide) (by decide),
   (C9_dispatch "open" [⟨"Safaricom", 1550⟩] [⟨"254700000000", ["KCB"], 1, 0⟩]
      (by decide)).1 ⟨"254700000000", ["KCB"], 1, 0⟩ (by decide) (by decide)⟩


set_option maxRecDepth 8000 in
/-- C3 counterexample: a non-integer trailing segment under the add branch
does not redisplay the menu the user was on.  With a subscriber holding one
stock, path 3*1*add*xy is answered with the manage/removal listing response
(the isdigit gate fails and the input falls through to the removal logic),
which is neither the add catalog menu nor the selection error that redisplays
it, refuting that every such input redisplays the same menu. -/
theorem C3_counterexample :
    ussd_callback "254700000000" "3*1*add*xy" catalog12
        [⟨"254700000000", ["Safaricom"], 0, 0⟩] =
      (manage_invalid_input_response ["Safaricom"],
       [⟨"254700000000", ["Safaricom"], 0, 0⟩]) ∧
    (ussd_callback "254700000000" "3*1*add*xy" catalog12
        [⟨"254700000000", ["Safaricom"], 0, 0⟩]).1 ≠
      "CON Select stocks to add:\n" ++ display_stocks_menu catalog12 ∧
    (ussd_callback "254700000000" "3*1*add*xy" catalog12
        [⟨"254700000000", ["Safaricom"], 0, 0⟩]).1 ≠
      "CON Invalid input. Please enter a number.\n" ++ display_stocks_menu catalog12 := by
  refine ⟨by decide, by decide, by decide⟩

/-- C3 (amended): validation policy of the numeric menus.  Non-integer
trailing segments and out-of-range integers yield continue responses that
carry an inline error line and leave the store unchanged, and only a missing
subscriber is terminal.  The selection, view, removal and toggle menus
redisplay the same menu, and a digit-string selection under the add branch
delegates and redisplays the catalog menu; but an add-branch segment that is
not a plain digit string falls through to the removal logic and redisplays
the manage/removal listing instead of the add menu. -/
theorem C3_validation_policy (phone t k : String) (catalog : List Stock) (store : Store) :
    (∀ s, (pySplitStar t).getLastD "" = s → s ≠ "0" → pyInt s = none →
       handle_stock_selection phone t catalog store =
         ("CON Invalid input. Please enter a number.\n" ++ display_stocks_menu catalog,
          store) ∧
       handle_view_stock_details t catalog =
         "CON Invalid input. Please enter a number.\n" ++ display_stocks_menu catalog) ∧
    (∀ s v, (pySplitStar t).getLastD "" = s → s ≠ "0" → pyInt s = some v →
       ¬((0 : Int) ≤ v - 1 ∧ v - 1 < (catalog.length : Int)) →
       handle_stock_selection phone t catalog store =
         ("CON Invalid stock number. Please try again.\n" ++ display_stocks_menu catalog,
          store) ∧
       handle_view_stock_details t catalog =
         "CON Invalid stock number. Please try again.\n" ++ display_stocks_menu catalog) ∧
    (get_subscriber phone store = none →
       handle_manage_subscribed_stocks phone t catalog store =
         ("END Error: Subscriber not found. Please re-subscribe.", store) ∧
       handle_notification_preference phone t store =
         ("END Error: Subscriber not found. Please re-subscribe.", store)) ∧
    (∀ subscriber, pySplitStar t = ["3", "1", k] →
       get_subscriber phone store = some subscriber →
       k ≠ "0" → pyLower k ≠ "add" → pyInt k = none →
       handle_manage_subscribed_stocks phone t catalog store =
         (manage_invalid_input_response subscriber.subscribed_stocks, store)) ∧
    (∀ subscriber v, pySplitStar t = ["3", "1", k] →
       get_subscriber phone store = some subscriber →
       k ≠ "0" → pyLower k ≠ "add" → pyInt k = some v →
       ¬((0 : Int) ≤ v - 1 ∧ v - 1 < (subscriber.subscribed_stocks.length : Int)) →
       handle_manage_subscribed_stocks phone t catalog store =
         (manage_invalid_number_response subscriber.subscribed_stocks, store)) ∧
    (∀ subscriber s, (pySplitStar t).getLastD "" = s →
       get_subscriber phone store = some subscriber →
       s ≠ "0" → s ≠ "1" → s ≠ "2" →
       handle_notification_preference phone t store =
         ("CON Invalid option. Please select 1 or 2.\n" ++
            prefs_body subscriber.market_open_notify subscriber.market_close_notify,
          store)) ∧
    (∀ subscriber seg, pySplitStar t = ["3", "1", "add", seg] →
       get_subscriber phone store = some subscriber →
       seg ≠ "0" → pyLower seg ≠ "add" → isPyDigit seg = false → pyInt seg = none →
       handle_manage_subscribed_stocks phone t catalog store =
         (manage_invalid_input_response subscriber.subscribed_stocks, store)) ∧
    (∀ subscriber seg v, pySplitStar t = ["3", "1", "add", seg] →
       get_subscriber phone store = some subscriber →
       seg ≠ "0" → pyLower seg ≠ "add" → isPyDigit seg = false → pyInt seg = some v →
       ¬((0 : Int) ≤ v - 1 ∧ v - 1 < (subscriber.subscribed_stocks.length : Int)) →
       handle_manage_subscribed_stocks phone t catalog store =
         (manage_invalid_number_response subscriber.subscribed_stocks, store)) ∧
    (∀ subscriber seg v, pySplitStar t = ["3", "1", "add", seg] →
       get_subscriber phone store = some subscriber →
       seg ≠ "0" → isPyDigit seg = true →
       (pySplitStar ("1*" ++ seg)).getLastD "" = seg → pyInt seg = some v →
       ¬((0 : Int) ≤ v - 1 ∧ v - 1 < (catalog.length : Int)) →
       handle_manage_subscribed_stocks phone t catalog store =
         ("CON Invalid stock number. Please try again.\n" ++ display_stocks_menu catalog,
          store)) := by
  refine ⟨?_, ?_, ?_, ?_, ?_, ?_, ?_, ?_, ?_⟩
  · intro s hlast hs0 hpy
    constructor
    · simp only [handle_stock_selection, hlast, hpy, hs0, if_false, ite_false]
    · simp only [handle_view_stock_details, hlast, hpy, hs0, if_false, ite_false]
  · intro s v hlast hs0 hpy hrange
    constructor
    · simp only [handle_stock_selection, hlast, hpy, hs0, if_false, ite_false]
      rw [if_neg hrange]
    · simp only [handle_view_stock_details, hlast, hpy, hs0, if_false, ite_false]
      rw [if_neg hrange]
  · intro hnone
    constructor
    · simp only [handle_manage_subscribed_stocks, hnone]
    · simp only [handle_notification_preference, hnone]
  · intro subscriber hparts hsub hk0 hkadd hpy
    simp only [handle_manage_subscribed_stocks, hparts, hsub, getLastD3, hk0, hkadd, hpy,
      if_false, ite_false]
    rw [if_neg (show ¬(3 ≤ (["3", "1", k] : List String).length ∧
        pyLower (List.getD ["3", "1", k] 2 "") = "add" ∧ isPyDigit k = true) from by
      intro hc
      exact hkadd hc.2.1)]
  · intro subscriber v hparts hsub hk0 hkadd hpy hrange
    simp only [handle_manage_subscribed_stocks, hparts, hsub, getLastD3, hk0, hkadd, hpy,
      if_false, ite_false]
    rw [if_neg (show ¬(3 ≤ (["3", "1", k] : List String).length ∧
        pyLower (List.getD ["3", "1", k] 2 "") = "add" ∧ isPyDigit k = true) from by
      intro hc
      exact hkadd hc.2.1)]
    rw [if_neg hrange]
  · intro subscriber s hlast hsub hs0 hs1 hs2
    simp only [handle_notification_preference, hlast, hsub, hs0, hs1, hs2, if_false,
      ite_false]
  · intro subscriber seg hparts hsub hs0 hsadd hdig hpy
    simp only [handle_manage_subscribed_stocks, hparts, hsub, getLastD4, hs0, hsadd, hpy,
      if_false, ite_false]
    rw [if_neg (show ¬(3 ≤ (["3", "1", "add", seg] : List String).length ∧
        pyLower (List.getD ["3", "1", "add", seg] 2 "") = "add" ∧ isPyDigit seg = true)
      from by
      intro hc
      rw [hdig] at hc
      simp at hc)]
  · intro subscriber seg v hparts hsub hs0 hsadd hdig hpy hrange
    simp only [handle_manage_subscribed_stocks, hparts, hsub, getLastD4, hs0, hsadd, hpy,
      if_false, ite_false]
    rw [if_neg (show ¬(3 ≤ (["3", "1", "add", seg] : List String).length ∧
        pyLower (List.getD ["3", "1", "add", seg] 2 "") = "add" ∧ isPyDigit seg = true)
      from by
      intro hc
      rw [hdig] at hc
      simp at hc)]
    rw [if_neg hrange]
  · intro subscriber seg v hparts hsub hs0 hdig hlast1 hpy hrange
    have hsadd : pyLower seg ≠ "add" := isPyDigit_lower_ne_add seg hdig
    simp only [handle_manage_subscribed_stocks, hparts, hsub, getLastD4, getD2of4, hs0,
      hsadd, if_false, ite_false]
    rw [if_pos (show 3 ≤ (["3", "1", "add", seg] : List String).length ∧
        pyLower "add" = "add" ∧ isPyDigit seg = true from ⟨by simp, by decide, hdig⟩)]
    simp only [handle_stock_selection, hlast1, hpy, hs0, if_false, ite_false]
    rw [if_neg hrange]

/-- C3 witness: a non-integer selection segment, an out-of-range removal
index, an invalid preference option, a non-digit add segment falling through
to the removal listing, and an out-of-range digit add segment redisplaying
the catalog menu. -/
theorem C3_validation_policy_witness :
    (handle_stock_selection "254700000000" "1*x" catalog12 store0 =
       ("CON Invalid input. Please enter a number.\n" ++ display_stocks_menu catalog12,
        store0) ∧
     handle_view_stock_details "1*x" catalog12 =
       "CON Invalid input. Please enter a number.\n" ++ display_stocks_menu catalog12) ∧
    handle_manage_subscribed_stocks "254700000000" "3*1*7" catalog12
        [⟨"254700000000", ["Safaricom"], 0, 0⟩] =
      (manage_invalid_number_response ["Safaricom"],
       [⟨"254700000000", ["Safaricom"], 0, 0⟩]) ∧
    handle_notification_preference "254700000000" "3*2*9" store0 =
      ("CON Invalid option. Please select 1 or 2.\n" ++ prefs_body 0 0, store0) ∧
    handle_manage_subscribed_stocks "254700000000" "3*1*add*xy" catalog12
        [⟨"254700000000", ["Safaricom"], 0, 0⟩] =
      (manage_invalid_input_response ["Safaricom"],
       [⟨"254700000000", ["Safaricom"], 0, 0⟩]) ∧
    handle_manage_subscribed_stocks "254700000000" "3*1*add*22" catalog12 store0 =
      ("CON Invalid stock number. Please try again.\n" ++ display_stocks_menu catalog12,
       store0) :=
  ⟨(C3_validation_policy "254700000000" "1*x" "" catalog12 store0).1 "x"
      (by decide) (by decide) (by decide),
   (C3_validation_policy "254700000000" "3*1*7" "7" catalog12
      [⟨"254700000000", ["Safaricom"], 0, 0⟩]).2.2.2.2.1
      ⟨"254700000000", ["Safaricom"], 0, 0⟩ 7 (by decide) (by decide) (by decide)
      (by decide) (by decide) (by decide),
   (C3_validation_policy "254700000000" "3*2*9" "" catalog12 store0).2.2.2.2.2.1
      ⟨"254700000000", [], 0, 0⟩ "9" (by decide) (by decide) (by decide) (by decide)
      (by decide),
   (C3_validation_policy "254700000000" "3*1*add*xy" "" catalog12
      [⟨"254700000000", ["Safaricom"], 0, 0⟩]).2.2.2.2.2.2.1
      ⟨"254700000000", ["Safaricom"], 0, 0⟩ "xy" (by decide) (by decide) (by decide)
      (by decide) (by decide) (by decide),
   (C3_validation_policy "254700000000" "3*1*add*22" "" catalog12 store0).2.2.2.2.2.2.2.2
      ⟨"254700000000", [], 0, 0⟩ "22" 22 (by decide) (by decide) (by decide) (by decide)
      (by decide) (by decide) (by decide)⟩
theorem wf_stock_selection (phone t : String) (catalog : List Stock) (store : Store) :
    IsCon (handle_stock_selection phone t catalog store).1 ∨
      IsEnd (handle_stock_selection phone t catalog store).1 := by
  simp only [handle_stock_selection]
  split
  · left
    show IsCon main_menu_response
    exact isCon_lit _ (by decide)
  · split
    · left
      repeat apply isCon_append
      exact isCon_lit _ (by decide)
    · split
      · split
        · right
          show IsEnd "END Error: Subscriber not found. Please re-subscribe."
          exact isEnd_lit _ (by decide)
        · split
          · left
            repeat apply isCon_append
            exact isCon_lit _ (by decide)
          · left
            repeat apply isCon_append
            exact isCon_lit _ (by decide)
      · left
        repeat apply isCon_append
        exact isCon_lit _ (by decide)

theorem wf_view (t : String) (catalog : List Stock) :
    IsCon (handle_view_stock_details t catalog) ∨
      IsEnd (handle_view_stock_details t catalog) := by
  simp only [handle_view_stock_details]
  split
  · left
    exact isCon_lit _ (by decide)
  · split
    · left
      repeat apply isCon_append
      exact isCon_lit _ (by decide)
    · split
      · right
        repeat apply isEnd_append
        exact isEnd_lit _ (by decide)
      · left
        repeat apply isCon_append
        exact isCon_lit _ (by decide)

theorem wf_manage (phone t : String) (catalog : List Stock) (store : Store) :
    IsCon (handle_manage_subscribed_stocks phone t catalog store).1 ∨
      IsEnd (handle_manage_subscribed_stocks phone t catalog store).1 := by
  simp only [handle_manage_subscribed_stocks]
  split
  · right
    show IsEnd "END Error: Subscriber not found. Please re-subscribe."
    exact isEnd_lit _ (by decide)
  · split
    · left
      show IsCon main_menu_response
      exact isCon_lit _ (by decide)
    · split
      · left
        repeat apply isCon_append
        exact isCon_lit _ (by decide)
      · split
        · exact wf_stock_selection phone _ catalog store
        · split
          · left
            unfold manage_invalid_input_response
            repeat apply isCon_append
            exact isCon_lit _ (by decide)
          · split
            · left
              repeat apply isCon_append
              exact isCon_lit _ (by decide)
            · left
              unfold manage_invalid_number_response
              repeat apply isCon_append
              exact isCon_lit _ (by decide)

theorem wf_pref (phone t : String) (store : Store) :
    IsCon (handle_notification_preference phone t store).1 ∨
      IsEnd (handle_notification_preference phone t store).1 := by
  simp only [handle_notification_preference]
  split
  · right
    show IsEnd "END Error: Subscriber not found. Please re-subscribe."
    exact isEnd_lit _ (by decide)
  · split
    · left
      repeat apply isCon_append
      exact isCon_lit _ (by decide)
    · split
      · left
        repeat apply isCon_append
        exact isCon_lit _ (by decide)
      · split
        · left
          show IsCon main_menu_response
          exact isCon_lit _ (by decide)
        · left
          repeat apply isCon_append
          exact isCon_lit _ (by decide)

/-- C2: totality of the dispatcher.  Whatever the phone, path text, catalog
and store, the callback produces a response that carries the CON or the END
marker (no branch escapes without a rendered response), and every path shape
outside the dispatcher menu grammar answers with exactly the terminal
invalid-input response and leaves the store unchanged. -/
theorem C2_total_and_invalid (phone text : String) (catalog : List Stock) (store : Store) :
    (IsCon (ussd_callback phone text catalog store).1 ∨
       IsEnd (ussd_callback phone text catalog store).1) ∧
    (grammar_shape text = false →
       ussd_callback phone text catalog store =
         ("END Invalid input. Please try again.", store)) := by
  constructor
  · unfold ussd_callback
    by_cases h1 : text = ""
    · rw [if_pos h1]
      left
      show IsCon main_menu_response
      exact isCon_lit _ (by decide)
    rw [if_neg h1]
    by_cases h2 : text = "1"
    · rw [if_pos h2]
      split
      · right
        repeat apply isEnd_append
        exact isEnd_lit _ (by decide)
      · left
        repeat apply isCon_append
        exact isCon_lit _ (by decide)
    rw [if_neg h2]
    by_cases h3 : pyStartsWith text "1*" = true
    · rw [if_pos h3]
      exact wf_stock_selection phone text catalog store
    rw [if_neg h3]
    by_cases h4 : text = "2"
    · rw [if_pos h4]
      left
      exact ⟨_, rfl⟩
    rw [if_neg h4]
    by_cases h5 : pyStartsWith text "2*" = true
    · rw [if_pos h5]
      exact wf_view text catalog
    rw [if_neg h5]
    by_cases h6 : text = "3"
    · rw [if_pos h6]
      split
      · right
        repeat apply isEnd_append
        exact isEnd_lit _ (by decide)
      · left
        show IsCon "CON My Subscriptions:\n1. Manage Subscribed Stocks\n2. Set Notification Preferences\n0. Back to Main Menu"
        exact isCon_lit _ (by decide)
    rw [if_neg h6]
    by_cases h7 : text = "3*1"
    · rw [if_pos h7]
      split
      · split
        · left
          repeat apply isCon_append
          exact isCon_lit _ (by decide)
        · left
          repeat apply isCon_append
          exact isCon_lit _ (by decide)
      · right
        show IsEnd "END Error: Subscriber not found."
        exact isEnd_lit _ (by decide)
    rw [if_neg h7]
    by_cases h8 : pyStartsWith text "3*1*" = true
    · rw [if_pos h8]
      exact wf_manage phone text catalog store
    rw [if_neg h8]
    by_cases h9 : text = "3*2"
    · rw [if_pos h9]
      split
      · left
        repeat apply isCon_append
        exact isCon_lit _ (by decide)
      · right
        show IsEnd "END Error: Subscriber not found."
        exact isEnd_lit _ (by decide)
    rw [if_neg h9]
    by_cases h10 : pyStartsWith text "3*2*" = true
    · rw [if_pos h10]
      exact wf_pref phone text store
    rw [if_neg h10]
    by_cases h11 : text = "4"
    · rw [if_pos h11]
      right
      show IsEnd "END You have successfully unsubscribed from Stock Price Tracker. Goodbye!"
      exact isEnd_lit _ (by decide)
    rw [if_neg h11]
    right
    show IsEnd "END Invalid input. Please try again."
    exact isEnd_lit _ (by decide)
  · intro hg
    unfold ussd_callback
    rw [if_neg (fun h => absurd (h ▸ hg) (by decide)),
      if_neg (fun h => absurd (h ▸ hg) (by decide)),
      if_neg (fun h : pyStartsWith text "1*" = true =>
        absurd (show grammar_shape text = true by simp [grammar_shape, h]) (by simp [hg])),
      if_neg (fun h => absurd (h ▸ hg) (by decide)),
      if_neg (fun h : pyStartsWith text "2*" = true =>
        absurd (show grammar_shape text = true by simp [grammar_shape, h]) (by simp [hg])),
      if_neg (fun h => absurd (h ▸ hg) (by decide)),
      if_neg (fun h => absurd (h ▸ hg) (by decide)),
      if_neg (fun h : pyStartsWith text "3*1*" = true =>
        absurd (show grammar_shape text = true by simp [grammar_shape, h]) (by simp [hg])),
      if_neg (fun h => absurd (h ▸ hg) (by decide)),
      if_neg (fun h : pyStartsWith text "3*2*" = true =>
        absurd (show grammar_shape text = true by simp [grammar_shape, h]) (by simp [hg])),
      if_neg (fun h => absurd (h ▸ hg) (by decide))]

/-- C2 witness: the path 9*9 matches no menu shape and gets the terminal
invalid-input response with the store unchanged. -/
theorem C2_total_and_invalid_witness :
    ussd_callback "254700000000" "9*9" catalog12 store0 =
      ("END Invalid input. Please try again.", store0) :=
  (C2_total_and_invalid "254700000000" "9*9" catalog12 store0).2 (by decide)
